import Mathlib

/-!
Verification development for a website uptime monitor (Rust, axum + sqlx + Postgres).
The source keeps a registry of monitored websites (`websites(id, url, alias)`), probes
each one every cycle and appends a row to a log table. The embedding below models
timestamps as seconds since the Unix epoch (UTC), the database as explicit lists of
rows, and each SQL query by its relational meaning over those lists.
-/

namespace Monitor

/-- Seconds since the Unix epoch, UTC. `date_trunc` and chrono's `with_minute(0)` etc.
operate on this representation as floor-truncation to the unit's width. -/
abbrev Time := Int

/-- Row of the `websites` table. The source's `Website` struct carries `url` and `alias`;
the table additionally has the serial `id` column used by `logs.website_id`
(the insert at src/src/main.rs:328 and the joins at lines 68 and 93). `alias` is a
reserved word in Lean, so the field is named `siteAlias`. -/
structure Website where
  id : Nat
  url : String
  siteAlias : String
deriving DecidableEq

/-- Row of the `logs` table, as written and read by the source: the insert at
src/src/main.rs:328 provides `(website_id, status)` with `created_at` defaulting to the
insertion time, and the reads use `logs.created_at`, `logs.status`, `logs.website_id`. -/
structure Log where
  website_id : Nat
  created_at : Time
  status : Int
deriving DecidableEq

/-- The database state: the `websites` and `logs` tables, each a list of rows in table
order (the order rows come back from a `SELECT` without `ORDER BY`). -/
structure Store where
  websites : List Website
  logs : List Log
deriving DecidableEq

/-- Source struct `WebsiteStats` (src/src/main.rs:266): one bucket of the uptime series;
`uptime_pct = none` is the synthesized "no data" marker. -/
structure WebsiteStats where
  time : Time
  uptime_pct : Option Int
deriving DecidableEq

/-- Source struct `Incident` (src/src/main.rs:260): one non-success check. -/
structure Incident where
  time : Time
  status : Int
deriving DecidableEq

/-- Source struct `WebsiteInfo` (src/src/main.rs:272): one overview row. -/
structure WebsiteInfo where
  url : String
  siteAlias : String
  data : List WebsiteStats
deriving DecidableEq

/-- `date_trunc('hour', t)`, equally chrono's `with_minute(0).with_second(0).with_nanosecond(0)`:
floor to the enclosing hour. `Int` `%` is `emod` (nonnegative remainder), so this is floor
truncation also for times before the epoch. -/
def truncHour (t : Time) : Time := t - t % 3600

/-- `date_trunc('day', t)`, equally `with_hour(0)` applied to an hour-truncated time:
floor to the enclosing UTC day. -/
def truncDay (t : Time) : Time := t - t % 86400

/-- Truncation to the enclosing minute, the time-slot granularity named by the
Recorder idempotency contract. -/
def truncMinute (t : Time) : Time := t - t % 60

/-- The rows of `logs` belonging to one alias: the source's
`LEFT JOIN websites ON websites.id = logs.website_id WHERE websites.alias = $1`
(src/src/main.rs:68-69, 93-94, 165). The `WHERE` on the joined column discards the
rows with no matching website, so the left join acts as an inner join. Table order
is preserved. -/
def logsOf (s : Store) (a : String) : List Log :=
  s.logs.filter (fun l => s.websites.any (fun w => decide (w.id = l.website_id ∧ w.siteAlias = a)))

/-- The logs contributing to the bucket that starts at `t`, under bucket-truncation `f`:
one `GROUP BY time` group. -/
def bucket (f : Time → Time) (logs : List Log) (t : Time) : List Log :=
  logs.filter (fun l => decide (f l.created_at = t))

/-- `COUNT(CASE WHEN status = 200 THEN 1 END) * 100 / COUNT(*)` (src/src/main.rs:66, 91):
Postgres integer division of nonnegative operands truncates toward zero, i.e. floor,
which is exactly `Nat` division. -/
def uptimePct (xs : List Log) : Nat :=
  xs.countP (fun l => decide (l.status = 200)) * 100 / xs.length

/-- The aggregation query of `get_daily_stats` / `get_monthly_stats`
(src/src/main.rs:63-77, 88-102): group the alias's logs by truncated bucket start,
compute the integer uptime percentage per group, `ORDER BY time ASC`, `LIMIT limit`.
`dedup` keeps one copy of each bucket start; the subsequent ascending sort makes the
kept copy irrelevant. -/
def aggregate (f : Time → Time) (limit : Nat) (logs : List Log) : List WebsiteStats :=
  ((((logs.map (fun l => f l.created_at)).dedup).insertionSort (fun a b => a ≤ b)).take limit).map
    (fun t => { time := t, uptime_pct := some (Int.ofNat (uptimePct (bucket f logs t))) })

/-- Source enum `SplitBy` (src/src/main.rs:111). -/
inductive SplitBy
  | Hour
  | Day
deriving DecidableEq

/-- `data.sort_by(|a, b| b.time.cmp(&a.time))` (src/src/main.rs:146): stable sort,
descending by time. Insertion with the strict relation `b.time < a.time` leaves
equal-time entries in their original relative order, matching Rust's stable sort. -/
def sortByTimeDesc (data : List WebsiteStats) : List WebsiteStats :=
  List.insertionSort (fun a b => b.time < a.time) data

/-- `fill_data_gaps` (src/src/main.rs:116-150), embedded statement by statement:
if fewer rows than `splits` came back, then for `i in 1..24` (i.e. i = 1,...,23 —
the loop bound is a hardcoded 24 and does not read `splits`) compute
`now - number_of_seconds * i`, truncate minutes/seconds away, additionally zero the
hour for `Day`, and push a `{time, uptime_pct: None}` entry unless that exact
timestamp is already present; finally sort descending by time. When the row count
is not below `splits`, the data is returned as-is, unsorted. -/
def fill_data_gaps (now : Time) (data : List WebsiteStats) (splits : Int)
    (format : SplitBy) (number_of_seconds : Int) : List WebsiteStats :=
  if (data.length : Int) < splits then
    sortByTimeDesc
      ((List.range' 1 23).foldl
        (fun acc i =>
          let t1 := now - number_of_seconds * (i : Int)
          let t2 := truncHour t1
          let t3 := match format with
            | SplitBy.Day => truncDay t2
            | SplitBy.Hour => t2
          if acc.any (fun x => decide (x.time = t3)) then acc
          else acc ++ [{ time := t3, uptime_pct := none }])
        data)
  else data

/-- `get_daily_stats` (src/src/main.rs:62-85): hourly buckets, limit 24, then gap fill
with `splits = 24`, `number_of_seconds = 3600`. `now` is the wall clock read inside
`fill_data_gaps`. -/
def get_daily_stats (now : Time) (s : Store) (a : String) : List WebsiteStats :=
  fill_data_gaps now (aggregate truncHour 24 (logsOf s a)) 24 SplitBy.Hour 3600

/-- `get_monthly_stats` (src/src/main.rs:87-109): daily buckets, limit 30, then gap fill
with `splits = 30`, `number_of_seconds = 86400`. -/
def get_monthly_stats (now : Time) (s : Store) (a : String) : List WebsiteStats :=
  fill_data_gaps now (aggregate truncDay 30 (logsOf s a)) 30 SplitBy.Day 86400

/-- `get_websites` (src/src/main.rs:42-60), the overview: every row of `websites`,
each with its gap-filled hourly series. -/
def get_websites (now : Time) (s : Store) : List WebsiteInfo :=
  s.websites.map (fun w => { url := w.url, siteAlias := w.siteAlias,
                             data := get_daily_stats now s w.siteAlias })

/-- The incident query of `get_website_by_alias` (src/src/main.rs:164-169):
`SELECT logs.created_at AS time, logs.status FROM logs LEFT JOIN websites ... WHERE
websites.alias = $1 AND logs.status != 200`. The query has no `ORDER BY`, so the rows
come back in table order. -/
def incidents (s : Store) (a : String) : List Incident :=
  ((logsOf s a).filter (fun l => decide (¬ l.status = 200))).map
    (fun l => { time := l.created_at, status := l.status })

/-- One transport-level probe outcome: the ways `reqwest` `send()` can fail. -/
inductive TransportError
  | timeout
  | dnsFailure
  | connectionRefused
  | tlsError
deriving DecidableEq

/-- The insert of `check_websites` (src/src/main.rs:328-337):
`INSERT INTO logs (website_id, status) VALUES ((SELECT id FROM websites WHERE alias = $1), $2)`
with `created_at` defaulting to the insertion time. A plain insert: no `ON CONFLICT`
clause and no key on a truncated timestamp, so it appends unconditionally. The case
where the alias subquery finds no row is not needed by any claim and is modelled as
leaving the store unchanged. -/
def insert_log (s : Store) (a : String) (now : Time) (status : Int) : Store :=
  match s.websites.find? (fun w => decide (w.siteAlias = a)) with
  | some w => { s with logs := s.logs ++ [{ website_id := w.id, created_at := now, status := status }] }
  | none => s

/-- The inner loop of `check_websites` (src/src/main.rs:323-338): for each website in
turn, `ctx.get(website.url).send().await.unwrap()` — a transport error makes the
`unwrap` panic, which kills the spawned monitoring task. The panic is modelled as
stopping the fold immediately and surfacing the error: inserts made before the panic
are already committed (each is its own statement), the failing website gets no row,
and the remaining websites are not probed. -/
def probeLoop (probe : String → Except TransportError Int) (now : Time) :
    Store → List Website → Store × Option TransportError
  | s, [] => (s, none)
  | s, w :: ws =>
    match probe w.url with
    | Except.error e => (s, some e)
    | Except.ok st => probeLoop probe now (insert_log s w.siteAlias now st) ws

/-- One cycle of `check_websites` (src/src/main.rs:314-340): read the registry fresh
and run the probe-and-insert loop over it. -/
def check_websites_cycle (probe : String → Except TransportError Int) (now : Time)
    (s : Store) : Store × Option TransportError :=
  probeLoop probe now s s.websites

/-- Database-side failure of one SQL statement. `undefinedColumn` is Postgres's error
for a `WHERE` clause naming a column the table does not have. -/
inductive SqlError
  | undefinedColumn
deriving DecidableEq

/-- The two statements issued by `delete_website` (src/src/main.rs:218, 226). -/
inductive Stmt
  | deleteLogsByWebsiteAlias (a : String)
  | deleteWebsitesByAlias (a : String)
deriving DecidableEq

/-- Meaning of each statement against the store.
`DELETE FROM logs WHERE website_alias = $1` (src/src/main.rs:218) names the column
`website_alias`, but the `logs` table has columns `website_id`, `created_at`, `status`
(its own insert at line 328 writes `(website_id, status)` and both read queries join
on `logs.website_id`), so Postgres rejects the statement with an undefined-column
error. `DELETE FROM websites WHERE alias = $1` (line 226) removes the matching
website rows. -/
def runStmt : Stmt → Store → Except SqlError Store
  | Stmt.deleteLogsByWebsiteAlias _, _ => Except.error SqlError.undefinedColumn
  | Stmt.deleteWebsitesByAlias a, s =>
    Except.ok { s with websites := s.websites.filter (fun w => decide (¬ w.siteAlias = a)) }

/-- Control flow of `delete_website` (src/src/main.rs:213-237), over an arbitrary
statement interpreter `exec` (the database engine is external to the source): begin a
transaction, run the logs delete, on error roll back and surface the error; run the
websites delete, on error roll back and surface the error; otherwise commit. The
result pairs the committed store (the original one after a rollback) with the error
returned to the caller, if any. Rollback itself is modelled as always succeeding. -/
def delete_website_flow (exec : Stmt → Store → Except SqlError Store) (s : Store)
    (a : String) : Store × Option SqlError :=
  match exec (Stmt.deleteLogsByWebsiteAlias a) s with
  | Except.error e => (s, some e)
  | Except.ok s1 =>
    match exec (Stmt.deleteWebsitesByAlias a) s1 with
    | Except.error e => (s, some e)
    | Except.ok s2 => (s2, none)

/-- `delete_website` with the actual statement semantics. -/
def delete_website (s : Store) (a : String) : Store × Option SqlError :=
  delete_website_flow runStmt s a

/-- Wake times of the scheduling loop (src/src/main.rs:315-317):
`tokio::time::interval(Duration::from_secs(60))` ticks immediately at the loop's
start instant and then every 60 seconds, so the k-th cycle begins at `start + 60·k`
(in seconds), wherever `start` falls within the wall-clock minute. -/
def cycle_wake (start k : Nat) : Nat := start + 60 * k

/-- Modelled from the spec's alignment policy, for comparison with `cycle_wake`: the
next wall-clock minute boundary after `now`, plus a fixed offset of `offset` seconds. -/
def alignedWake (now offset : Nat) : Nat := (now / 60 + 1) * 60 + offset

/-- Times of a series are (weakly) descending, most recent first. -/
def timesSortedDescBool : List WebsiteStats → Bool
  | a :: b :: rest => decide (b.time ≤ a.time) && timesSortedDescBool (b :: rest)
  | _ => true

/-- Times of an incident list are strictly ascending. -/
def incidentsStrictAscBool : List Incident → Bool
  | a :: b :: rest => decide (a.time < b.time) && incidentsStrictAscBool (b :: rest)
  | _ => true

/-- A registered website used in the concrete evaluations. -/
def exampleSite : Website := { id := 1, url := "https://example.com", siteAlias := "abc" }

/-- A website whose URL does not resolve. -/
def badSite : Website := { id := 2, url := "http://unreachable.example", siteAlias := "bad" }

/-- A probe in which the unreachable site times out and every other request returns 200. -/
def probeDemo : String → Except TransportError Int :=
  fun u => if u = "http://unreachable.example" then Except.error TransportError.timeout
           else Except.ok 200

/-- Registry with the unreachable site first, a reachable one second, no logs yet. -/
def storeBadFirst : Store := { websites := [badSite, exampleSite], logs := [] }

/-- One registered target with zero recorded checks. -/
def storeEmptyLogs : Store := { websites := [exampleSite], logs := [] }

/-- One target whose two non-success logs sit in the table in reverse chronological
order (nothing in the system constrains table order, and the store invariant in the
spec tells consumers to sort explicitly). -/
def storeUnordered : Store :=
  { websites := [exampleSite],
    logs := [{ website_id := 1, created_at := 7200, status := 500 },
             { website_id := 1, created_at := 3600, status := 404 }] }

/-- One target with one successful check: the state for exercising deletion. -/
def storeOneLog : Store :=
  { websites := [exampleSite], logs := [{ website_id := 1, created_at := 0, status := 200 }] }

/-- Three checks in one hour bucket: statuses 200, 500, 200. -/
def logs2of3 : List Log :=
  [{ website_id := 1, created_at := 0, status := 200 },
   { website_id := 1, created_at := 60, status := 500 },
   { website_id := 1, created_at := 120, status := 200 }]

/-- Four checks in one hour bucket, all failures. -/
def logs0of4 : List Log :=
  [{ website_id := 1, created_at := 0, status := 500 },
   { website_id := 1, created_at := 60, status := 500 },
   { website_id := 1, created_at := 120, status := 404 },
   { website_id := 1, created_at := 180, status := 503 }]

/-- Four checks in one hour bucket, all successes. -/
def logs4of4 : List Log :=
  [{ website_id := 1, created_at := 0, status := 200 },
   { website_id := 1, created_at := 60, status := 200 },
   { website_id := 1, created_at := 120, status := 200 },
   { website_id := 1, created_at := 180, status := 200 }]

/-- One successful check in each of 25 consecutive hour buckets (hours 0..24). -/
def logs25h : List Log :=
  (List.range 25).map (fun i => { website_id := 1, created_at := 3600 * (i : Int), status := 200 })

/-- An aggregator result that already has 24 entries, in the aggregator's ascending
order. -/
def stats24asc : List WebsiteStats :=
  (List.range 24).map (fun i => { time := 3600 * (i : Int), uptime_pct := some 100 })

/-- C1: the claim says a transport failure while probing one target is captured and
recorded as a distinguished failure status and never aborts the cycle for the
remaining targets. The code `unwrap`s the probe result instead: with the unreachable
site first in the registry, the cycle surfaces the transport error (the task panics),
no row at all is recorded for the failing target — no failure-sentinel status — and
the reachable second target is never probed, so its check is lost too. -/
theorem c1_probe_failure_aborts_cycle :
    check_websites_cycle probeDemo 1000 storeBadFirst =
      (storeBadFirst, some TransportError.timeout) ∧
    (check_websites_cycle probeDemo 1000 storeBadFirst).1.logs = [] := by
  constructor
  · rfl
  · rfl

/-- C2: the claim says the gap-filled series always has exactly N entries (24 hourly,
30 daily), and that a target with zero recorded checks yields 24 hourly entries.
Evaluating the code on such a target: the fill loop runs `for i in 1..24` — 23
iterations, with the bound hardcoded rather than taken from `splits` — so the hourly
view has 23 entries (the current hour is missing) and the daily view also has 23
entries instead of 30. -/
theorem c2_gap_fill_wrong_length :
    (get_daily_stats 1000000000 storeEmptyLogs "abc").length = 23 ∧
    (get_monthly_stats 1000000000 storeEmptyLogs "abc").length = 23 ∧
    timesSortedDescBool (get_daily_stats 1000000000 storeEmptyLogs "abc") = true := by
  refine ⟨by decide, by decide, by decide⟩

/-- C4: the claim says a second insert for the same target within the same truncated
minute is a no-op leaving exactly one stored row. The code's
`INSERT INTO logs (website_id, status) VALUES (...)` has no `ON CONFLICT` clause and
no minute-truncated key: two inserts at times 10 and 30 — the same minute slot — leave
two rows. -/
theorem c4_duplicate_insert_same_minute :
    truncMinute 10 = truncMinute 30 ∧
    (insert_log (insert_log storeEmptyLogs "abc" 10 200) "abc" 30 200).logs =
      [{ website_id := 1, created_at := 10, status := 200 },
       { website_id := 1, created_at := 30, status := 200 }] := by
  refine ⟨by decide, by decide⟩

/-- C5: the claim says the Aggregator orders buckets ascending and keeps at most the
most recent N. The query is `ORDER BY time ASC LIMIT 24`: with checks in 25 distinct
hour buckets (hours starting at 0, 3600, ..., 86400), the result is the 24 oldest
buckets — times 0 through 82800 — and the most recent bucket (86400) is the one
dropped. -/
theorem c5_limit_keeps_oldest :
    (aggregate truncHour 24 logs25h).map (fun ws => ws.time) =
      (List.range 24).map (fun i => (3600 * (i : Int))) ∧
    (86400 : Int) ∉ (aggregate truncHour 24 logs25h).map (fun ws => ws.time) := by
  refine ⟨by decide, by decide⟩

/-- C7: the claim says deleting a target removes all its CheckResults and a subsequent
overview omits it. The code's first statement is
`DELETE FROM logs WHERE website_alias = $1`, but `logs` (as written and read elsewhere
in the same file) is keyed by `website_id` and has no `website_alias` column, so the
statement errors, the transaction rolls back, and nothing is deleted: the store is
unchanged, the log row is still there, and the overview still lists the target. -/
theorem c7_delete_always_fails :
    delete_website storeOneLog "abc" = (storeOneLog, some SqlError.undefinedColumn) ∧
    (get_websites 1000000000 (delete_website storeOneLog "abc").1).map
      (fun i => i.siteAlias) = ["abc"] ∧
    (delete_website storeOneLog "abc").1.logs ≠ [] := by
  refine ⟨by decide, by decide, by decide⟩

/-- C8 counterexample: the claim says that when the Aggregator's result already has N
entries, GapFiller returns them re-sorted descending. With a 24-entry ascending input
and `splits = 24`, `fill_data_gaps` takes the else-branch and returns the input
unchanged — still ascending, not descending. -/
theorem c8_full_series_not_resorted :
    (stats24asc.length : Int) = 24 ∧
    fill_data_gaps 1000000000 stats24asc 24 SplitBy.Hour 3600 = stats24asc ∧
    timesSortedDescBool (fill_data_gaps 1000000000 stats24asc 24 SplitBy.Hour 3600) = false := by
  refine ⟨by decide, by decide, by decide⟩

/-- C8 (amended): if the Aggregator's result already has at least N entries, GapFiller
returns exactly those entries unchanged — in the input's (ascending) order, with no
entry added, removed, modified, or re-sorted: the descending sort runs only in the
gap-filling branch. -/
theorem c8_full_series_returned_unchanged :
    ∀ (now : Time) (data : List WebsiteStats) (splits : Int) (format : SplitBy)
      (number_of_seconds : Int),
      splits ≤ (data.length : Int) →
      fill_data_gaps now data splits format number_of_seconds = data := by
  intro now data splits format number_of_seconds h
  unfold fill_data_gaps
  rw [if_neg (not_lt.mpr h)]

/-- C8 witness: the amended statement applied to the concrete 24-entry ascending
series with `splits = 24`. -/
theorem c8_full_series_returned_unchanged_witness :
    fill_data_gaps 1000000000 stats24asc 24 SplitBy.Hour 3600 = stats24asc :=
  c8_full_series_returned_unchanged 1000000000 stats24asc 24 SplitBy.Hour 3600 (by decide)

/-- C9 counterexample: the claim says each wake is the next wall-clock minute boundary
plus a small fixed offset. The loop's timer ticks at `start + 60·k`: starting at
second 30 the next wake is 90 and starting at 45 it is 105, i.e. the wakes keep the
start's own offset within the minute (30 and 45 respectively) — two different
distances past the boundary, so no fixed offset exists, and with the spec's example
offset of +2s the predicted wake 62 differs from the actual 90. -/
theorem c9_wake_not_boundary_aligned :
    cycle_wake 30 1 = 90 ∧ cycle_wake 45 1 = 105 ∧
    cycle_wake 30 1 % 60 = 30 ∧ cycle_wake 45 1 % 60 = 45 ∧
    cycle_wake 30 1 - 60 = 30 ∧ cycle_wake 45 1 - 60 = 45 ∧ (30 : Nat) ≠ 45 ∧
    alignedWake 30 2 = 62 ∧ cycle_wake 30 1 ≠ alignedWake 30 2 := by
  refine ⟨rfl, rfl, rfl, rfl, rfl, rfl, by decide, rfl, by decide⟩

/-- C9 (amended): the Scheduler is a fixed-period 60-second timer, not a wall-clock
aligned one: the k-th wake is exactly `start + 60·k`, and every wake preserves the
loop start's offset within the minute (`wake % 60 = start % 60`), so wakes are not
computed from the next minute boundary plus a fixed offset. -/
theorem c9_fixed_period_timer :
    ∀ (start k : Nat),
      cycle_wake start k = start + 60 * k ∧ cycle_wake start k % 60 = start % 60 := by
  intro start k
  refine ⟨rfl, ?_⟩
  simp [cycle_wake, Nat.add_mul_mod_self_left]

/-- C3: every bucket the Aggregator emits comes from at least one contributing check,
and its percentage is the floor of `success_count * 100 / total_count`: it equals the
`Nat` division of the counts (which is floor division), and it is characterized as
the floor by `p·total ≤ success·100 < (p+1)·total`. Concretely, 2 successes of 3
checks give 66, 0 of 4 give 0, and 4 of 4 give 100. -/
theorem c3_uptime_floor :
    (∀ (logs : List Log) (t : Time) (p : Int),
      ({ time := t, uptime_pct := some p } : WebsiteStats) ∈ aggregate truncHour 24 logs →
      (bucket truncHour logs t).length ≠ 0 ∧
      p = Int.ofNat ((bucket truncHour logs t).countP (fun l => decide (l.status = 200)) * 100 /
        (bucket truncHour logs t).length) ∧
      p.toNat * (bucket truncHour logs t).length ≤
        (bucket truncHour logs t).countP (fun l => decide (l.status = 200)) * 100 ∧
      (bucket truncHour logs t).countP (fun l => decide (l.status = 200)) * 100 <
        (p.toNat + 1) * (bucket truncHour logs t).length) ∧
    aggregate truncHour 24 logs2of3 = [{ time := 0, uptime_pct := some 66 }] ∧
    aggregate truncHour 24 logs0of4 = [{ time := 0, uptime_pct := some 0 }] ∧
    aggregate truncHour 24 logs4of4 = [{ time := 0, uptime_pct := some 100 }] := by
  refine ⟨?_, by decide, by decide, by decide⟩
  intro logs t p hmem
  unfold aggregate at hmem
  rw [List.mem_map] at hmem
  obtain ⟨t0, ht0, heq⟩ := hmem
  rw [WebsiteStats.mk.injEq, Option.some.injEq] at heq
  obtain ⟨rfl, rfl⟩ := heq
  have h1 := List.mem_of_mem_take ht0
  rw [List.mem_insertionSort] at h1
  rw [List.mem_dedup] at h1
  rw [List.mem_map] at h1
  obtain ⟨l0, hl0, hfl0⟩ := h1
  have hbl : l0 ∈ bucket truncHour logs t0 := by
    unfold bucket
    rw [List.mem_filter]
    exact ⟨hl0, by simpa using hfl0⟩
  have hlen : (bucket truncHour logs t0).length ≠ 0 := by
    intro h
    rw [List.length_eq_zero] at h
    rw [h] at hbl
    exact absurd hbl (List.not_mem_nil l0)
  have hpos : 0 < (bucket truncHour logs t0).length := Nat.pos_of_ne_zero hlen
  refine ⟨hlen, rfl, ?_, ?_⟩
  · simpa [uptimePct] using
      Nat.div_mul_le_self
        ((bucket truncHour logs t0).countP (fun l => decide (l.status = 200)) * 100)
        (bucket truncHour logs t0).length
  · simpa [uptimePct] using
      (Nat.div_lt_iff_lt_mul hpos).mp
        (Nat.lt_succ_self
          ((bucket truncHour logs t0).countP (fun l => decide (l.status = 200)) * 100 /
            (bucket truncHour logs t0).length))

/-- C3 witness: the floor characterization applied to the 2-of-3 bucket at hour 0,
where the percentage is 66. -/
theorem c3_uptime_floor_witness :
    (bucket truncHour logs2of3 0).length ≠ 0 ∧
    (66 : Int) = Int.ofNat ((bucket truncHour logs2of3 0).countP
        (fun l => decide (l.status = 200)) * 100 / (bucket truncHour logs2of3 0).length) ∧
    (66 : Int).toNat * (bucket truncHour logs2of3 0).length ≤
      (bucket truncHour logs2of3 0).countP (fun l => decide (l.status = 200)) * 100 ∧
    (bucket truncHour logs2of3 0).countP (fun l => decide (l.status = 200)) * 100 <
      ((66 : Int).toNat + 1) * (bucket truncHour logs2of3 0).length :=
  c3_uptime_floor.1 logs2of3 0 66 (by decide)

/-- C6 counterexample: the claim says the incident list is ordered strictly ascending
by time. The incident query has no `ORDER BY`, so it returns the rows in table order:
with the two failure rows stored in reverse chronological order, the list comes back
as 7200 then 3600 — not ascending. -/
theorem c6_incidents_not_sorted :
    incidents storeUnordered "abc" =
      [{ time := 7200, status := 500 }, { time := 3600, status := 404 }] ∧
    incidentsStrictAscBool (incidents storeUnordered "abc") = false := by
  refine ⟨by decide, by decide⟩

/-- C6 (amended): the incident list contains exactly the CheckResults of the target
whose status is not 200 — every such check appears, every success is excluded — in the
store's order: the query applies no ordering of its own (the returned list is a
sublist of the target's logs in table order). -/
theorem c6_incidents_store_order :
    ∀ (s : Store) (a : String),
      (∀ i ∈ incidents s a, i.status ≠ 200) ∧
      (∀ l ∈ logsOf s a, l.status ≠ 200 →
        ({ time := l.created_at, status := l.status } : Incident) ∈ incidents s a) ∧
      List.Sublist (incidents s a)
        ((logsOf s a).map (fun l => ({ time := l.created_at, status := l.status } : Incident))) := by
  intro s a
  refine ⟨?_, ?_, ?_⟩
  · intro i hi
    unfold incidents at hi
    rw [List.mem_map] at hi
    obtain ⟨l, hl, rfl⟩ := hi
    rw [List.mem_filter] at hl
    simpa using hl.2
  · intro l hl hst
    unfold incidents
    rw [List.mem_map]
    refine ⟨l, ?_, rfl⟩
    rw [List.mem_filter]
    exact ⟨hl, by simpa using hst⟩
  · unfold incidents
    exact (List.filter_sublist (logsOf s a)).map _

/-- C6 witness: the amended completeness direction at a concrete store — the failure
at time 7200 with status 500 appears in the incident list. -/
theorem c6_incidents_store_order_witness :
    ({ time := 7200, status := 500 } : Incident) ∈ incidents storeUnordered "abc" :=
  (c6_incidents_store_order storeUnordered "abc").2.1
    { website_id := 1, created_at := 7200, status := 500 } (by decide) (by decide)

/-- C10: target deletion is transactional. For every statement interpreter: if the
logs delete fails, the committed store is the original one and the error is surfaced;
if the logs delete succeeds but the websites delete fails, the logs delete is rolled
back — the committed store is again the original one — and the error is surfaced;
only when both succeed is the combined effect committed, with no error. -/
theorem c10_delete_transaction_atomic :
    ∀ (exec : Stmt → Store → Except SqlError Store) (s : Store) (a : String),
      (∀ e, exec (Stmt.deleteLogsByWebsiteAlias a) s = Except.error e →
        delete_website_flow exec s a = (s, some e)) ∧
      (∀ s1 e, exec (Stmt.deleteLogsByWebsiteAlias a) s = Except.ok s1 →
        exec (Stmt.deleteWebsitesByAlias a) s1 = Except.error e →
        delete_website_flow exec s a = (s, some e)) ∧
      (∀ s1 s2, exec (Stmt.deleteLogsByWebsiteAlias a) s = Except.ok s1 →
        exec (Stmt.deleteWebsitesByAlias a) s1 = Except.ok s2 →
        delete_website_flow exec s a = (s2, none)) := by
  intro exec s a
  refine ⟨?_, ?_, ?_⟩
  · intro e h
    simp [delete_website_flow, h]
  · intro s1 e h1 h2
    simp [delete_website_flow, h1, h2]
  · intro s1 s2 h1 h2
    simp [delete_website_flow, h1, h2]

/-- C10 witness: the rollback branch at the actual statement semantics — the logs
delete fails on the undefined column, and the flow leaves the store unchanged while
surfacing the error. -/
theorem c10_delete_transaction_atomic_witness :
    delete_website_flow runStmt storeOneLog "abc" =
      (storeOneLog, some SqlError.undefinedColumn) :=
  (c10_delete_transaction_atomic runStmt storeOneLog "abc").1 SqlError.undefinedColumn rfl

end Monitor
